import Mathlib

/-!
Verification of the replication core of HierarchicalPcb (`src/placement.py`)
against its natural-language specification.

The Python source is shallowly embedded below.  Machine geometry uses `ℤ`
(KiCad `VECTOR2I` coordinates), angles use `ℚ` (decimal degrees), and the
trigonometric part of `PositionTransform.translate` is carried out over `ℝ`
(Python `float` arithmetic, `math.sin`/`math.cos`), with Python's `int()`
truncation-toward-zero modelled explicitly.  Fallible Python code (attribute
errors, name errors, index errors) is embedded with `Except`.
-/

/-- The Python exceptions that the embedded code can raise. -/
inductive PyErr
  /-- `NameError`: a free variable (such as `self` in a module-level function)
  is not bound. -/
  | nameError
  /-- `IndexError`: list subscript out of range. -/
  | indexError
  /-- `AttributeError`: attribute read on an object that never assigned it. -/
  | attributeError
deriving DecidableEq, Repr

/-- Python `int(x)` on a float: truncation toward zero. -/
noncomputable def truncInt (x : ℝ) : ℤ := if 0 ≤ x then ⌊x⌋ else ⌈x⌉

/-- The data of an anchor footprint that `PositionTransform` reads:
`GetPosition()` (integer nanometres) and `GetOrientationDegrees()` /
`GetOrientation()` (decimal degrees). -/
structure Anchor where
  posX : ℤ
  posY : ℤ
  orientDeg : ℚ
deriving DecidableEq, Repr

/-- `PositionTransform.__init__` (placement.py lines 46-51): stores the two
anchor footprints. -/
structure PositionTransform where
  anchor_template : Anchor
  anchor_mutate : Anchor
deriving DecidableEq, Repr

/-- placement.py lines 57-60: `rotation = math.radians(
anchor_mutate.GetOrientationDegrees() - anchor_template.GetOrientationDegrees())`,
where `math.radians x = x * pi / 180`. -/
noncomputable def PositionTransform.rotationRad (t : PositionTransform) : ℝ :=
  ((t.anchor_mutate.orientDeg - t.anchor_template.orientDeg : ℚ) : ℝ) * Real.pi / 180

/-- placement.py lines 55-56: the offset of the template point from the
template anchor, `delta_x`/`delta_y`. -/
def PositionTransform.deltaOf (t : PositionTransform) (pos_template : ℤ × ℤ) : ℤ × ℤ :=
  (pos_template.1 - t.anchor_template.posX, pos_template.2 - t.anchor_template.posY)

/-- `PositionTransform.translate` before the final `int()` casts
(placement.py lines 53-72):
`new_x = delta_y * sin(rotation) + delta_x * cos(rotation) + anchor_mutate.x`,
`new_y = delta_y * cos(rotation) - delta_x * sin(rotation) + anchor_mutate.y`. -/
noncomputable def PositionTransform.translateR (t : PositionTransform) (pos_template : ℤ × ℤ) : ℝ × ℝ :=
  let delta_x : ℝ := ((t.deltaOf pos_template).1 : ℝ)
  let delta_y : ℝ := ((t.deltaOf pos_template).2 : ℝ)
  let rotation : ℝ := t.rotationRad
  (delta_y * Real.sin rotation + delta_x * Real.cos rotation + (t.anchor_mutate.posX : ℝ),
   delta_y * Real.cos rotation - delta_x * Real.sin rotation + (t.anchor_mutate.posY : ℝ))

/-- `PositionTransform.translate` (placement.py line 73):
`pcbnew.VECTOR2I(int(new_x), int(new_y))`. -/
noncomputable def PositionTransform.translate (t : PositionTransform) (pos_template : ℤ × ℤ) : ℤ × ℤ :=
  (truncInt (t.translateR pos_template).1, truncInt (t.translateR pos_template).2)

/-- `PositionTransform.orient` (placement.py lines 75-80):
`rot_template - anchor_template.GetOrientation() + anchor_mutate.GetOrientation()`. -/
def PositionTransform.orient (t : PositionTransform) (rot_template : ℚ) : ℚ :=
  rot_template - t.anchor_template.orientDeg + t.anchor_mutate.orientDeg

/-- The standard counter-clockwise 2-D rotation matrix applied to a vector;
this follows the spec's words "applies the 2-D rotation matrix to `delta`"
and is used to compare the source's formula with the claimed one. -/
noncomputable def rot2 (θ : ℝ) (v : ℝ × ℝ) : ℝ × ℝ :=
  (v.1 * Real.cos θ - v.2 * Real.sin θ, v.1 * Real.sin θ + v.2 * Real.cos θ)

lemma rad90 : ((90 : ℚ) : ℝ) * Real.pi / 180 = Real.pi / 2 := by
  push_cast
  ring

lemma truncInt_zero : truncInt 0 = 0 := by
  simp [truncInt]

lemma truncInt_neg_ten : truncInt (-10 : ℝ) = -10 := by
  have h : ¬ (0 : ℝ) ≤ -10 := by norm_num
  rw [truncInt, if_neg h, show ((-10 : ℝ)) = (((-10 : ℤ) : ℝ)) by norm_num, Int.ceil_intCast]

lemma truncInt_of_int (n : ℤ) : truncInt (n : ℝ) = n := by
  rcases le_or_lt 0 (n : ℝ) with h | h
  · rw [truncInt, if_pos h, Int.floor_intCast]
  · rw [truncInt, if_neg (not_le.mpr h), Int.ceil_intCast]

/-- The rotation scenario of C1 evaluated on the source's formula:
anchors at the origin with orientations 0 deg and 90 deg, point (10, 0). -/
noncomputable def c1RotScenario : ℤ × ℤ :=
  PositionTransform.translate ⟨⟨0, 0, 0⟩, ⟨0, 0, 90⟩⟩ (10, 0)

lemma c1RotScenario_eval : c1RotScenario = (0, -10) := by
  have hrot : PositionTransform.rotationRad ⟨⟨0, 0, 0⟩, ⟨0, 0, 90⟩⟩ = Real.pi / 2 := by
    rw [PositionTransform.rotationRad]
    push_cast
    ring
  have hR : PositionTransform.translateR ⟨⟨0, 0, 0⟩, ⟨0, 0, 90⟩⟩ (10, 0) = (0, -10) := by
    rw [PositionTransform.translateR, hrot]
    norm_num [PositionTransform.deltaOf, Real.sin_pi_div_two, Real.cos_pi_div_two]
  rw [c1RotScenario, PositionTransform.translate, hR]
  exact Prod.ext truncInt_zero truncInt_neg_ten

/-- The simple-translation scenario of C1: template anchor (0,0) at 0 deg,
target anchor (100,50) at 0 deg, point (10,10). -/
noncomputable def c1TransScenario : ℤ × ℤ :=
  PositionTransform.translate ⟨⟨0, 0, 0⟩, ⟨100, 50, 0⟩⟩ (10, 10)

lemma c1TransScenario_eval : c1TransScenario = (110, 60) := by
  have hrot : PositionTransform.rotationRad ⟨⟨0, 0, 0⟩, ⟨100, 50, 0⟩⟩ = 0 := by
    rw [PositionTransform.rotationRad]
    norm_num
  have hR : PositionTransform.translateR ⟨⟨0, 0, 0⟩, ⟨100, 50, 0⟩⟩ (10, 10) = (110, 60) := by
    rw [PositionTransform.translateR, hrot]
    norm_num [PositionTransform.deltaOf]
  rw [c1TransScenario, PositionTransform.translate, hR]
  exact Prod.ext (truncInt_of_int 110) (truncInt_of_int 60)

/-- C1, counterexample: with both anchors at (0,0) and orientations 0 deg and
90 deg, the source's `PositionTransform.translate` maps the point (10,0) to
(0,-10), not to approximately (0,10) as the claim states. -/
theorem c1_counterexample :
    c1RotScenario = (0, -10) ∧ c1RotScenario ≠ ((0 : ℤ), (10 : ℤ)) := by
  refine ⟨c1RotScenario_eval, ?_⟩
  rw [c1RotScenario_eval]
  decide

/-- C1 (amended): `PositionTransform.translate` maps a template-frame point by
computing `delta = p - anchor_template.position` and the angle
`θ = anchor_target.orientation - anchor_template.orientation` (degrees to
radians), rotating `delta` by the NEGATIVE of `θ` under the standard
counter-clockwise rotation-matrix convention (a clockwise rotation, matching
KiCad's downward y-axis), and adding `anchor_target.position`; in particular
the simple-translation scenario gives (110,60), and the rotation scenario
with orientations 0 deg / 90 deg maps (10,0) to (0,-10). -/
theorem c1_translate_clockwise (t : PositionTransform) (p : ℤ × ℤ) :
    (t.translateR p =
      ((rot2 (-(t.rotationRad)) (((t.deltaOf p).1 : ℝ), ((t.deltaOf p).2 : ℝ))).1
          + (t.anchor_mutate.posX : ℝ),
       (rot2 (-(t.rotationRad)) (((t.deltaOf p).1 : ℝ), ((t.deltaOf p).2 : ℝ))).2
          + (t.anchor_mutate.posY : ℝ)))
    ∧ c1TransScenario = (110, 60)
    ∧ c1RotScenario = (0, -10) := by
  refine ⟨?_, c1TransScenario_eval, c1RotScenario_eval⟩
  rw [PositionTransform.translateR, rot2]
  simp only [Real.sin_neg, Real.cos_neg]
  exact Prod.ext (by ring) (by ring)

/-- `ErrorLevel` (placement.py lines 11-14). -/
def ErrorLevel.INFO : ℕ := 0

/-- `ErrorLevel.WARNING` (placement.py line 13). -/
def ErrorLevel.WARNING : ℕ := 1

/-- `ErrorLevel.ERROR` (placement.py line 14). -/
def ErrorLevel.ERROR : ℕ := 2

/-- A diagnostic record emitted through the plugin's logger. -/
structure Diag where
  level : ℕ
  text : String
deriving DecidableEq, Repr

/-- `pcbnew.PCB_GROUP`: a named group; `gid` is the object's identity (two
distinct group objects may carry the same name). -/
structure PCB_GROUP where
  gid : ℕ
  gname : String
deriving DecidableEq, Repr

/-- The runtime class of a board item, as discriminated by
`isinstance(item.Cast(), ...)` and `type(...)` in the source.  `via` items
are `pcbnew.PCB_VIA`, a subclass of `pcbnew.PCB_TRACK`. -/
inductive ItemCat
  | footprint
  | track
  | via
  | zone
  | shape
  | text
deriving DecidableEq, Repr

/-- A `pcbnew.BOARD_ITEM`.  `iid` is the object identity; `parentGroup`
models `GetParentGroup()` (group membership is exclusive: one optional
parent); `netCode` models `GetNetCode()` for tracks and zones; `padNets`
models, for footprints, the net codes of `Pads()` in pad order;
`reference` models `GetReference()` for footprints. -/
structure Item where
  iid : ℕ
  cat : ItemCat
  pos : ℤ × ℤ
  startP : ℤ × ℤ
  endP : ℤ × ℤ
  orientDeg : ℚ
  netCode : ℕ
  padNets : List ℕ
  reference : String
  flipped : Bool
  isFree : Bool
  parentGroup : Option PCB_GROUP
deriving DecidableEq, Repr

/-- A `pcbnew.BOARD`: item and group collections plus fresh-identity
counters used when the embedded code creates new objects. -/
structure Board where
  items : List Item
  groups : List PCB_GROUP
  nextGid : ℕ
  nextIid : ℕ
deriving DecidableEq, Repr

/-- `board.Tracks()`: all `PCB_TRACK` items, which includes `PCB_VIA`. -/
def Board.Tracks (b : Board) : List Item :=
  b.items.filter (fun it => it.cat == ItemCat.track || it.cat == ItemCat.via)

/-- `board.GetDrawings()`: shapes and text. -/
def Board.Drawings (b : Board) : List Item :=
  b.items.filter (fun it => it.cat == ItemCat.shape || it.cat == ItemCat.text)

/-- `board.Zones()`. -/
def Board.Zones (b : Board) : List Item :=
  b.items.filter (fun it => it.cat == ItemCat.zone)

/-- `board.GetFootprints()`. -/
def Board.GetFootprints (b : Board) : List Item :=
  b.items.filter (fun it => it.cat == ItemCat.footprint)

/-- `GroupManager._create_or_get` (placement.py lines 88-98): scan
`board.Groups()` keeping the latest group whose name matches (the loop
overwrites `retGroup` on every match), and if none matched create a
`PCB_GROUP`, set its name and `board.Add` it.  The function contains no
logging call, so its diagnostic output is always empty. -/
def GroupManager._create_or_get (board : Board) (group_name : String) :
    Board × PCB_GROUP × List Diag :=
  let retGroup : Option PCB_GROUP :=
    board.groups.foldl (fun acc group => if group.gname = group_name then some group else acc) none
  match retGroup with
  | some g => (board, g, [])
  | none =>
    let g : PCB_GROUP := { gid := board.nextGid, gname := group_name }
    ({ board with groups := board.groups ++ [g], nextGid := board.nextGid + 1 }, g, [])

/-- `GroupManager.move` (placement.py lines 100-114): if the item's parent
group exists and its NAME differs from the managed group's name, remove the
item from it (`moved = True`); afterwards, if the item has no parent group,
add it to the managed group.  The comparison is by name, not by group
identity. -/
def GroupManager.move (mgr : PCB_GROUP) (item : Item) : Item × Bool :=
  match item.parentGroup with
  | some parent_group =>
    if parent_group.gname ≠ mgr.gname then
      ({ item with parentGroup := some mgr }, true)
    else
      (item, false)
  | none => ({ item with parentGroup := some mgr }, false)

/-- The runtime-type tuple `itemTypesToRemove` of `clear_volatile_items`
(placement.py lines 148-155): `PCB_TRACK` (hence also `PCB_VIA`), `ZONE`,
`PCB_SHAPE`, `PCB_TEXT`. -/
def isVolatileType (c : ItemCat) : Bool :=
  match c with
  | ItemCat.track => true
  | ItemCat.via => true
  | ItemCat.zone => true
  | ItemCat.shape => true
  | ItemCat.text => true
  | ItemCat.footprint => false

/-- `clear_volatile_items` (placement.py lines 144-162): for every item of
the group, if its runtime type is in `itemTypesToRemove`, remove it from the
group's board.  Items outside the group, and footprints, are untouched. -/
def clear_volatile_items (board : Board) (group : PCB_GROUP) : Board :=
  { board with
    items := board.items.filter
      (fun it => !(it.parentGroup == some group && isVolatileType it.cat)) }

/-- The last group of a given name in a list of groups, if any. -/
def lastNamed (gs : List PCB_GROUP) (n : String) : Option PCB_GROUP :=
  gs.reverse.find? (fun g => g.gname == n)

lemma foldl_pick_last (n : String) :
    ∀ (gs : List PCB_GROUP) (acc : Option PCB_GROUP),
      gs.foldl (fun a g => if g.gname = n then some g else a) acc
        = match lastNamed gs n with
          | some g => some g
          | none => acc := by
  intro gs
  induction gs with
  | nil => intro acc; simp [lastNamed]
  | cons g gs ih =>
    intro acc
    rw [List.foldl_cons, ih]
    simp only [lastNamed, List.reverse_cons, List.find?_append]
    cases hfind : gs.reverse.find? (fun g' => g'.gname == n) with
    | some x => simp
    | none =>
      by_cases h : g.gname = n
      · simp [List.find?, h]
      · have hb : (g.gname == n) = false := by simp [h]
        simp [List.find?, hb]
        exact fun hc => absurd hc h

/-- `GroupManager._create_or_get` expressed through `lastNamed`: the loop at
placement.py lines 91-93 overwrites `retGroup` on every name match, so the
LAST same-named group wins; when no group matches, a fresh group with the
requested name is created and registered on the board; no diagnostic is
ever emitted. -/
lemma create_or_get_eq (b : Board) (group_name : String) :
    GroupManager._create_or_get b group_name
      = (match lastNamed b.groups group_name with
         | some g => (b, g, ([] : List Diag))
         | none =>
           ({ b with
              groups := b.groups ++ [{ gid := b.nextGid, gname := group_name }],
              nextGid := b.nextGid + 1 },
            { gid := b.nextGid, gname := group_name }, ([] : List Diag))) := by
  simp only [GroupManager._create_or_get, foldl_pick_last]
  cases lastNamed b.groups group_name <;> rfl

/-- The board with two distinct groups both named "G", used to refute the
first-match-wins part of C9. -/
def c9Board : Board :=
  { items := [], groups := [⟨0, "G"⟩, ⟨1, "G"⟩], nextGid := 2, nextIid := 0 }

/-- C9, counterexample: on a board holding two distinct groups both named
"G", `GroupManager._create_or_get` returns the LAST matching group (gid 1),
not the first (gid 0), and emits no warning diagnostic — the claim states
that the first match wins and that a warning is logged. -/
theorem c9_counterexample :
    (GroupManager._create_or_get c9Board "G").2.1 = ⟨1, "G"⟩
    ∧ (GroupManager._create_or_get c9Board "G").2.1 ≠ (⟨0, "G"⟩ : PCB_GROUP)
    ∧ (GroupManager._create_or_get c9Board "G").2.2 = [] := by
  decide

/-- C9 (amended): constructing a group manager for a design and a group name
returns an existing group of that name when one exists and otherwise creates
a new group with that name and registers it on the design; when multiple
groups of the same name exist, the LAST match wins, and no warning is
logged. -/
theorem c9_create_or_get_last_match (b : Board) (group_name : String) :
    GroupManager._create_or_get b group_name
      = (match lastNamed b.groups group_name with
         | some g => (b, g, ([] : List Diag))
         | none =>
           ({ b with
              groups := b.groups ++ [{ gid := b.nextGid, gname := group_name }],
              nextGid := b.nextGid + 1 },
            { gid := b.nextGid, gname := group_name }, ([] : List Diag))) :=
  create_or_get_eq b group_name

/-- An item sitting in a group named "G" with gid 0, while the manager
manages the DISTINCT group ⟨1, "G"⟩ of the same name. -/
def c7Item : Item :=
  { iid := 7, cat := ItemCat.footprint, pos := (0, 0), startP := (0, 0), endP := (0, 0),
    orientDeg := 0, netCode := 0, padNets := [], reference := "R1", flipped := false,
    isFree := false, parentGroup := some ⟨0, "G"⟩ }

/-- C7, counterexample: `GroupManager.move` compares group NAMES only
(placement.py line 106).  An item belonging to a distinct group that shares
the managed group's name is not a member of the managed group, yet `move`
does not add it (and returns `moved = false`) — refuting "adds it to the
managed group if it is not already a member". -/
theorem c7_counterexample :
    c7Item.parentGroup ≠ some (⟨1, "G"⟩ : PCB_GROUP)
    ∧ (GroupManager.move ⟨1, "G"⟩ c7Item).1.parentGroup ≠ some (⟨1, "G"⟩ : PCB_GROUP)
    ∧ (GroupManager.move ⟨1, "G"⟩ c7Item).2 = false := by
  decide

/-- C7 (amended): `GroupManager.move` removes the item from any group with a
different NAME first (returning `moved = true` exactly when that happens)
and then adds it to the managed group if it is left in no group; an item
already sitting in a group carrying the managed group's name — even a
distinct group — is left where it is.  After a claim the item always
belongs to a group bearing the managed name, and a second claim of the same
item changes nothing and returns `moved = false`. -/
theorem c7_move_spec (mgr : PCB_GROUP) (item : Item) :
    ((GroupManager.move mgr item).2 = true ↔
       ∃ pg, item.parentGroup = some pg ∧ pg.gname ≠ mgr.gname)
    ∧ (∃ pg, (GroupManager.move mgr item).1.parentGroup = some pg ∧ pg.gname = mgr.gname)
    ∧ GroupManager.move mgr ((GroupManager.move mgr item).1)
        = ((GroupManager.move mgr item).1, false) := by
  cases hpg : item.parentGroup with
  | none =>
    refine ⟨by simp [GroupManager.move, hpg], ⟨mgr, by simp [GroupManager.move, hpg], rfl⟩, ?_⟩
    simp [GroupManager.move, hpg]
  | some pg =>
    by_cases h : pg.gname = mgr.gname
    · refine ⟨?_, ⟨pg, by simp [GroupManager.move, hpg, h], h⟩, ?_⟩
      · simp only [GroupManager.move, hpg]
        simp [h]
      · simp [GroupManager.move, hpg, h]
    · refine ⟨?_, ⟨mgr, by simp [GroupManager.move, hpg, h], rfl⟩, ?_⟩
      · simp only [GroupManager.move, hpg]
        simp [h]
      · simp [GroupManager.move, hpg, h]

/-- C8 (confirmed): the purge removes from the board every item of the target
group whose runtime type is track, via, zone, shape or text; footprints —
grouped or not — survive unchanged (as identical records, so their group
membership is intact), nothing outside the group or non-volatile is removed,
and the board's group list is untouched. -/
theorem c8_clear_volatile (board : Board) (g : PCB_GROUP) :
    (∀ it, it ∈ board.items → it.parentGroup = some g → isVolatileType it.cat = true →
        it ∉ (clear_volatile_items board g).items)
    ∧ (∀ it, it ∈ board.items → it.cat = ItemCat.footprint →
        it ∈ (clear_volatile_items board g).items)
    ∧ (∀ it, it ∈ (clear_volatile_items board g).items → it ∈ board.items)
    ∧ (∀ it, it ∈ board.items → it ∉ (clear_volatile_items board g).items →
        it.parentGroup = some g ∧ isVolatileType it.cat = true)
    ∧ (clear_volatile_items board g).groups = board.groups := by
  refine ⟨?_, ?_, ?_, ?_, rfl⟩
  · intro it h1 h2 h3
    simp [clear_volatile_items, List.mem_filter, h1, h2, h3]
  · intro it h1 h2
    simp [clear_volatile_items, List.mem_filter, h1, h2, isVolatileType]
  · intro it h1
    exact (List.mem_filter.mp h1).1
  · intro it h1 h2
    have hp : ¬ ((!(it.parentGroup == some g && isVolatileType it.cat)) = true) := by
      intro hpt
      exact h2 (List.mem_filter.mpr ⟨h1, hpt⟩)
    simpa using hp

/-- The group used in the C8 witness board. -/
def c8Group : PCB_GROUP := ⟨0, "G"⟩

/-- A grouped track on the C8 witness board. -/
def c8Track : Item :=
  { iid := 1, cat := ItemCat.track, pos := (0, 0), startP := (0, 0), endP := (4, 4),
    orientDeg := 0, netCode := 3, padNets := [], reference := "", flipped := false,
    isFree := false, parentGroup := some c8Group }

/-- A grouped footprint on the C8 witness board. -/
def c8Fp : Item :=
  { iid := 2, cat := ItemCat.footprint, pos := (1, 1), startP := (0, 0), endP := (0, 0),
    orientDeg := 0, netCode := 0, padNets := [5], reference := "R1", flipped := false,
    isFree := false, parentGroup := some c8Group }

/-- The concrete board for the C8 witness. -/
def c8Board : Board :=
  { items := [c8Track, c8Fp], groups := [c8Group], nextGid := 1, nextIid := 3 }

/-- C8, witness: on a concrete board, the purge removes the grouped track and
keeps the grouped footprint. -/
theorem c8_clear_volatile_witness :
    c8Track ∉ (clear_volatile_items c8Board c8Group).items
    ∧ c8Fp ∈ (clear_volatile_items c8Board c8Group).items :=
  ⟨(c8_clear_volatile c8Board c8Group).1 c8Track (by decide) (by decide) (by decide),
   (c8_clear_volatile c8Board c8Group).2.1 c8Fp (by decide) (by decide)⟩

/-- `ReplicateContext` (placement.py lines 120-141): bundles the
`PositionTransform` of the anchor pair, the source and target boards (the
`GetBoard()` of the two anchor footprints), and the managed group of the
inherited `GroupManager`. -/
structure ReplicateContext where
  transform : PositionTransform
  sourceBoard : Board
  targetBoard : Board
  group : PCB_GROUP
deriving DecidableEq, Repr

/-- `ReplicateContext.__init__` (placement.py lines 121-133): reads the two
boards from the anchor footprints (lines 128-129), initialises
`PositionTransform` with the anchor pair (line 131), and then initialises
`GroupManager` with `self._sourceBoard` (line 133) — so the group is looked
up, or created and registered, on the SOURCE board, and the target board is
left untouched. -/
def ReplicateContext.init (sourceAnchorFootprint targetAnchorFootprint : Anchor)
    (sourceBoard targetBoard : Board) (groupName : String) : ReplicateContext :=
  let r := GroupManager._create_or_get sourceBoard groupName
  { transform := ⟨sourceAnchorFootprint, targetAnchorFootprint⟩,
    sourceBoard := r.1, targetBoard := targetBoard, group := r.2.1 }

/-- The source board of the C4 evaluation: empty, no groups. -/
def c4SrcBoard : Board := { items := [], groups := [], nextGid := 0, nextIid := 0 }

/-- The target board of the C4 evaluation: empty, no groups, distinct from
the source board. -/
def c4TgtBoard : Board := { items := [], groups := [], nextGid := 0, nextIid := 5 }

/-- C4: evaluating `ReplicateContext.__init__` on distinct source and target
boards shows the managed group is created and registered on the SOURCE
board (line 133 passes `self._sourceBoard` to `GroupManager.__init__`),
while the claim — and the spec — say the membership enforcer is constructed
over, and its group registered on, the target design. -/
theorem c4_group_registered_on_source :
    (ReplicateContext.init ⟨0, 0, 0⟩ ⟨9, 9, 0⟩ c4SrcBoard c4TgtBoard "G").group = ⟨0, "G"⟩
    ∧ (ReplicateContext.init ⟨0, 0, 0⟩ ⟨9, 9, 0⟩ c4SrcBoard c4TgtBoard "G").sourceBoard.groups
        = [⟨0, "G"⟩]
    ∧ (ReplicateContext.init ⟨0, 0, 0⟩ ⟨9, 9, 0⟩ c4SrcBoard c4TgtBoard "G").targetBoard.groups
        = [] := by
  decide

/-- Python `dict.get(key, default)` over an association-list model of the
dict in which assignment prepends, so the most recent assignment wins. -/
def dget (m : List (ℕ × ℕ)) (k d : ℕ) : ℕ :=
  match m.find? (fun p => p.1 == k) with
  | some p => p.2
  | none => d

/-- One iteration of the `copy_traces` loop body (placement.py lines
186-201): `sourceTrack.Duplicate()` (a fresh, ungrouped copy carrying a new
identity), net remap `netMapping.get(sourceNetCode, 0)` resolved on the
target board (lines 189-191), `SetStart`/`SetEnd` through the context's
transform (lines 195-196), `SetIsFree(False)` when the duplicate is a
`PCB_VIA` (lines 198-199), and `context.move` into the managed group
(line 201). -/
def dupTrack (tr : ℤ × ℤ → ℤ × ℤ) (mgr : PCB_GROUP) (netMapping : List (ℕ × ℕ))
    (freshId : ℕ) (sourceTrack : Item) : Item :=
  let newTrack : Item := { sourceTrack with iid := freshId, parentGroup := none }
  let newTrack := { newTrack with netCode := dget netMapping sourceTrack.netCode 0 }
  let newTrack := { newTrack with startP := tr sourceTrack.startP, endP := tr sourceTrack.endP }
  let newTrack :=
    if newTrack.cat = ItemCat.via then { newTrack with isFree := false } else newTrack
  (GroupManager.move mgr newTrack).1

/-- `copy_traces` (placement.py lines 181-201): for every track of the
source board, duplicate it into the target board via `dupTrack`.  The
context's `translate` is passed as `tr` (it is real-valued trigonometry)
and the context's group as `mgr`. -/
def copy_traces (tr : ℤ × ℤ → ℤ × ℤ) (mgr : PCB_GROUP) (netMapping : List (ℕ × ℕ))
    (targetBoard : Board) : List Item → Board
  | [] => targetBoard
  | sourceTrack :: rest =>
    copy_traces tr mgr netMapping
      { targetBoard with
        items := targetBoard.items ++ [dupTrack tr mgr netMapping targetBoard.nextIid sourceTrack],
        nextIid := targetBoard.nextIid + 1 } rest

/-- `copy_drawings` (placement.py lines 165-178): for every drawing of the
source board, duplicate it into the target board, `SetPosition` through the
transform, rotate it about its own (new) position by `orient(ANGLE_0)` —
drawings have no absolute-orientation setter — and claim it into the group.
`rotDelta` is the context's `orient 0`. -/
def copy_drawings (tr : ℤ × ℤ → ℤ × ℤ) (rotDelta : ℚ) (mgr : PCB_GROUP)
    (targetBoard : Board) : List Item → Board
  | [] => targetBoard
  | sourceDrawing :: rest =>
    let newDrawing : Item := { sourceDrawing with iid := targetBoard.nextIid, parentGroup := none }
    let newDrawing := { newDrawing with pos := tr sourceDrawing.pos }
    let newDrawing := { newDrawing with orientDeg := newDrawing.orientDeg + rotDelta }
    let newDrawing := (GroupManager.move mgr newDrawing).1
    copy_drawings tr rotDelta mgr
      { targetBoard with
        items := targetBoard.items ++ [newDrawing],
        nextIid := targetBoard.nextIid + 1 } rest

/-- `copy_zones` (placement.py lines 204-234): the first statement of the
body (line 206) is `transform = self._transformer`, but `self` is not bound
in this module-level function, so Python raises `NameError` before any zone
is inspected, on every input.  The rest of the body — net remap with
`footprintNetMapping.get(sourceNetCode, 0)`, the move-to-origin-then-move
positioning workaround, the relative rotation, and the group claim — is
unreachable. -/
def copy_zones (context : ReplicateContext) (netMapping : List (ℕ × ℕ)) :
    Except PyErr Board :=
  Except.error PyErr.nameError

lemma move_netCode (mgr : PCB_GROUP) (it : Item) :
    ((GroupManager.move mgr it).1).netCode = it.netCode := by
  cases h : it.parentGroup with
  | none => simp [GroupManager.move, h]
  | some pg =>
    by_cases hn : pg.gname = mgr.gname <;> simp [GroupManager.move, h, hn]

lemma dupTrack_netCode (tr : ℤ × ℤ → ℤ × ℤ) (mgr : PCB_GROUP)
    (netMapping : List (ℕ × ℕ)) (freshId : ℕ) (t : Item) :
    (dupTrack tr mgr netMapping freshId t).netCode = dget netMapping t.netCode 0 := by
  rw [dupTrack]
  split <;> simp [move_netCode]

lemma copy_traces_mem (tr : ℤ × ℤ → ℤ × ℤ) (mgr : PCB_GROUP) (netMapping : List (ℕ × ℕ)) :
    ∀ (ts : List Item) (tb : Board) (it : Item),
      it ∈ (copy_traces tr mgr netMapping tb ts).items →
      it ∈ tb.items ∨ ∃ t, t ∈ ts ∧ it.netCode = dget netMapping t.netCode 0 := by
  intro ts
  induction ts with
  | nil =>
    intro tb it h
    rw [copy_traces] at h
    exact Or.inl h
  | cons t rest ih =>
    intro tb it h
    rw [copy_traces] at h
    rcases ih _ it h with h1 | ⟨t', ht', hnet⟩
    · rcases List.mem_append.mp h1 with h2 | h2
      · exact Or.inl h2
      · refine Or.inr ⟨t, List.mem_cons_self t rest, ?_⟩
        rw [List.mem_singleton.mp h2, dupTrack_netCode]
    · exact Or.inr ⟨t', List.mem_cons_of_mem t ht', hnet⟩

lemma copy_traces_mono (tr : ℤ × ℤ → ℤ × ℤ) (mgr : PCB_GROUP) (netMapping : List (ℕ × ℕ)) :
    ∀ (ts : List Item) (tb : Board) (it : Item),
      it ∈ tb.items → it ∈ (copy_traces tr mgr netMapping tb ts).items := by
  intro ts
  induction ts with
  | nil =>
    intro tb it h
    rw [copy_traces]
    exact h
  | cons t rest ih =>
    intro tb it h
    rw [copy_traces]
    exact ih _ it (List.mem_append.mpr (Or.inl h))

/-- C5: every track copy's network is `netMapping.get(sourceNetCode, 0)` —
the mapped target code when the template code is a key, and the unconnected
code 0 when it is absent — and every source track gives rise to such a
copy; but `copy_zones` raises `NameError` on every input (line 206 reads
the undefined `self`), so no zone is ever copied, let alone remapped. -/
theorem c5_net_remap (tr : ℤ × ℤ → ℤ × ℤ) (mgr : PCB_GROUP) (netMapping : List (ℕ × ℕ))
    (tb : Board) (ts : List Item) :
    (∀ it, it ∈ (copy_traces tr mgr netMapping tb ts).items → it ∉ tb.items →
       ∃ t, t ∈ ts ∧ it.netCode = dget netMapping t.netCode 0)
    ∧ (∀ t, t ∈ ts →
       ∃ it, it ∈ (copy_traces tr mgr netMapping tb ts).items
         ∧ it.netCode = dget netMapping t.netCode 0)
    ∧ (∀ k d, netMapping.find? (fun p => p.1 == k) = none → dget netMapping k d = d)
    ∧ (∀ context nm, copy_zones context nm = Except.error PyErr.nameError) := by
  refine ⟨?_, ?_, ?_, fun _ _ => rfl⟩
  · intro it hmem hnot
    rcases copy_traces_mem tr mgr netMapping ts tb it hmem with h | h
    · exact absurd h hnot
    · exact h
  · intro t ht
    induction ts generalizing tb with
    | nil => cases ht
    | cons hd rest ih =>
      rcases List.mem_cons.mp ht with rfl | hrest
      · refine ⟨dupTrack tr mgr netMapping tb.nextIid t, ?_, dupTrack_netCode tr mgr netMapping tb.nextIid t⟩
        rw [copy_traces]
        exact copy_traces_mono tr mgr netMapping rest _ _
          (List.mem_append.mpr (Or.inr (List.mem_singleton.mpr rfl)))
      · rcases ih _ hrest with ⟨it, hit, hnet⟩
        exact ⟨it, by rw [copy_traces]; exact hit, hnet⟩
  · intro k d h
    rw [dget, h]

/-- The managed group of the C5 witness. -/
def c5Mgr : PCB_GROUP := ⟨0, "G"⟩

/-- A source track with template net code 5, used in the C5 witness. -/
def c5Src : Item :=
  { iid := 0, cat := ItemCat.track, pos := (0, 0), startP := (1, 1), endP := (2, 2),
    orientDeg := 0, netCode := 5, padNets := [], reference := "", flipped := false,
    isFree := false, parentGroup := none }

/-- The (empty) target board of the C5 witness. -/
def c5Tb : Board := { items := [], groups := [c5Mgr], nextGid := 1, nextIid := 10 }

/-- The copy that `copy_traces` produces for `c5Src` under the net mapping
`[(5, 7)]`: net code 5 is remapped to 7. -/
def c5Copy : Item :=
  { iid := 10, cat := ItemCat.track, pos := (0, 0), startP := (1, 1), endP := (2, 2),
    orientDeg := 0, netCode := 7, padNets := [], reference := "", flipped := false,
    isFree := false, parentGroup := some c5Mgr }

/-- C5, witness: the net-remap theorem applied at a concrete input — the
copied track of a source track with net code 5 carries the mapped code per
the mapping `[(5, 7)]`, and a code absent from the mapping defaults to 0. -/
theorem c5_net_remap_witness :
    (∃ t, t ∈ [c5Src] ∧ c5Copy.netCode = dget [(5, 7)] t.netCode 0)
    ∧ dget ([(5, 7)] : List (ℕ × ℕ)) 9 0 = 0 :=
  ⟨(c5_net_remap id c5Mgr [(5, 7)] c5Tb [c5Src]).1 c5Copy (by decide) (by decide),
   (c5_net_remap id c5Mgr [(5, 7)] c5Tb [c5Src]).2.2.1 9 0 (by decide)⟩

/-- Python dict assignment `m[k] = v`, modelled by prepending — the most
recent assignment shadows older ones for `dget`. -/
def dset (m : List (ℕ × ℕ)) (k v : ℕ) : List (ℕ × ℕ) := (k, v) :: m

/-- The pad-correspondence loop of `enforce_position_footprints`
(placement.py lines 317-323), isolated so that it can be examined past the
line-299 slip: `for sourcePadNum, sourcePad in enumerate(
sourceFootprint.Pads()): targetPad = targetFootprint.Pads()[sourcePadNum];
footprintNetMapping[sourceCode] = targetCode`.  Pads are represented by
their net codes.  The subscript into the target pad list raises
`IndexError` as soon as the source footprint has more pads than the target;
no diagnostic of any level is emitted on any path. -/
def padNetMapping (sourcePads targetPads : List ℕ) (footprintNetMapping : List (ℕ × ℕ))
    (sourcePadNum : ℕ) : Except PyErr (List (ℕ × ℕ)) :=
  match sourcePads with
  | [] => Except.ok footprintNetMapping
  | sourceCode :: restPads =>
    match targetPads[sourcePadNum]? with
    | none => Except.error PyErr.indexError
    | some targetCode =>
      padNetMapping restPads targetPads (dset footprintNetMapping sourceCode targetCode)
        (sourcePadNum + 1)

lemma padNetMapping_eq :
    ∀ (sourcePads : List ℕ) (targetPads : List ℕ) (acc : List (ℕ × ℕ)) (i : ℕ),
      padNetMapping sourcePads targetPads acc i
        = if sourcePads.length ≤ (targetPads.drop i).length
          then Except.ok ((sourcePads.zip (targetPads.drop i)).reverse ++ acc)
          else Except.error PyErr.indexError := by
  intro sourcePads
  induction sourcePads with
  | nil => intro tp acc i; simp [padNetMapping]
  | cons s ss ih =>
    intro tp acc i
    rw [padNetMapping]
    cases hi : tp[i]? with
    | none =>
      have hlen : tp.length ≤ i := by
        by_contra hcon
        rw [List.getElem?_eq_getElem (Nat.lt_of_not_le hcon)] at hi
        cases hi
      have hdrop : tp.drop i = [] := List.drop_eq_nil_of_le hlen
      rw [hdrop]
      simp
    | some t =>
      obtain ⟨hlt, heq⟩ := List.getElem?_eq_some.mp hi
      have hdrop : tp.drop i = t :: tp.drop (i + 1) := by
        rw [List.drop_eq_getElem_cons hlt, heq]
      dsimp only
      rw [ih tp (dset acc s t) (i + 1), hdrop]
      by_cases h : ss.length ≤ (tp.drop (i + 1)).length
      · rw [if_pos h, if_pos (by simpa using Nat.succ_le_succ h)]
        simp [dset]
      · rw [if_neg h, if_neg (by simpa using fun hc => h (Nat.le_of_succ_le_succ hc))]

/-- `enforce_position_footprints` (placement.py lines 294-328): the first
statement of the body (line 299) is `fpTranslator = self._fpTranslator`,
but `self` is not bound in this module-level function — Python raises
`NameError` before the footprint loop starts, on every input, with no
diagnostic emitted.  The loop — resolve the counterpart via `fpTranslator`,
`continue` silently when it is `None` (lines 311-312, no logging call),
copy the footprint data, build the pad net mapping (see `padNetMapping`),
claim the target footprint into the group — is unreachable. -/
def enforce_position_footprints (context : ReplicateContext)
    (fpTranslator : Item → Option Item) :
    List Diag × Except PyErr (List (ℕ × ℕ)) :=
  ([], Except.error PyErr.nameError)

/-- A template footprint with three pads (net codes 1, 2, 3). -/
def c3SrcFp : Item :=
  { iid := 0, cat := ItemCat.footprint, pos := (0, 0), startP := (0, 0), endP := (0, 0),
    orientDeg := 0, netCode := 0, padNets := [1, 2, 3], reference := "U1", flipped := false,
    isFree := false, parentGroup := none }

/-- A target footprint with two pads (net codes 4, 5). -/
def c3TgtFp : Item :=
  { iid := 1, cat := ItemCat.footprint, pos := (0, 0), startP := (0, 0), endP := (0, 0),
    orientDeg := 0, netCode := 0, padNets := [4, 5], reference := "U1", flipped := false,
    isFree := false, parentGroup := none }

/-- The concrete replication context of the C3 counterexample: a source
board holding the 3-pad footprint, a target board holding the 2-pad one. -/
def c3Ctx : ReplicateContext :=
  { transform := ⟨⟨0, 0, 0⟩, ⟨0, 0, 0⟩⟩,
    sourceBoard := { items := [c3SrcFp], groups := [], nextGid := 0, nextIid := 2 },
    targetBoard := { items := [c3TgtFp], groups := [⟨0, "G"⟩], nextGid := 1, nextIid := 2 },
    group := ⟨0, "G"⟩ }

/-- The pairing function of the C3 counterexample, pairing the 3-pad
template footprint with the 2-pad target footprint. -/
def c3Translator : Item → Option Item :=
  fun s => if s.iid = 0 then some c3TgtFp else none

/-- C3, counterexample: with a 3-terminal template footprint paired to a
2-terminal target footprint, `enforce_position_footprints` does not return
a 2-entry net mapping with one WARNING diagnostic — it emits no diagnostic
at all and fails with `NameError` (line 299 reads `self._fpTranslator`
although `self` is not bound in this module-level function). -/
theorem c3_counterexample :
    enforce_position_footprints c3Ctx c3Translator = ([], Except.error PyErr.nameError)
    ∧ (∀ m, (enforce_position_footprints c3Ctx c3Translator).2 ≠ Except.ok m)
    ∧ ((enforce_position_footprints c3Ctx c3Translator).1).length = 0 := by
  refine ⟨rfl, ?_, rfl⟩
  intro m h
  rw [show (enforce_position_footprints c3Ctx c3Translator).2
        = Except.error PyErr.nameError from rfl] at h
  cases h

/-- C3 (amended): the net-correspondence phase, as written, raises
`NameError` on every call before any pad is visited (see the C3
counterexample); its pad loop, taken with that slip repaired, indexes the
target pad list at every template pad index: when the template footprint
has MORE terminals than the target — in particular 3 against 2 — it raises
`IndexError` with no diagnostic and no partial mapping, and when the
template has at most as many terminals as the target it records one
`mapping[templateTerminal.network] = targetTerminal.network` entry per
template index, again with no diagnostic. -/
theorem c3_pad_loop_no_truncation (sourcePads targetPads : List ℕ) :
    (padNetMapping sourcePads targetPads [] 0
      = if sourcePads.length ≤ targetPads.length
        then Except.ok ((sourcePads.zip targetPads).reverse)
        else Except.error PyErr.indexError)
    ∧ padNetMapping [1, 2, 3] [4, 5] [] 0 = Except.error PyErr.indexError := by
  constructor
  · rw [padNetMapping_eq sourcePads targetPads [] 0]
    simp
  · rfl

/-- A template footprint with no target counterpart, for the C6
counterexample. -/
def c6SrcFp : Item :=
  { iid := 0, cat := ItemCat.footprint, pos := (3, 3), startP := (0, 0), endP := (0, 0),
    orientDeg := 0, netCode := 0, padNets := [1], reference := "U9", flipped := false,
    isFree := false, parentGroup := none }

/-- The concrete replication context of the C6 counterexample. -/
def c6Ctx : ReplicateContext :=
  { transform := ⟨⟨0, 0, 0⟩, ⟨0, 0, 0⟩⟩,
    sourceBoard := { items := [c6SrcFp], groups := [], nextGid := 0, nextIid := 1 },
    targetBoard := { items := [], groups := [⟨0, "G"⟩], nextGid := 1, nextIid := 0 },
    group := ⟨0, "G"⟩ }

/-- C6, counterexample: with a template footprint for which the pairing
function resolves no counterpart, the footprint-copy phase does NOT produce
one INFO-level diagnostic while skipping it — it emits no diagnostic at all
and fails with `NameError` before the pairing is even consulted (line 299
reads the undefined `self`); even the unreachable skip branch (lines
311-312) holds no logging call. -/
theorem c6_counterexample :
    enforce_position_footprints c6Ctx (fun _ => none) = ([], Except.error PyErr.nameError)
    ∧ ((enforce_position_footprints c6Ctx (fun _ => none)).1).length = 0 :=
  ⟨rfl, rfl⟩

/-- C6 (amended): the footprint-copy phase never processes — and hence never
skips, logs, or copies — any footprint: for every context and every pairing
function it fails with `NameError` (line 299 reads `self._fpTranslator`
although `self` is unbound in the module-level function) and emits no
diagnostic; in particular an unpaired template footprint yields no INFO
diagnostic, no mutation of the target design and no net-mapping entries,
because the phase aborts before its loop. -/
theorem c6_no_skip_diagnostic (context : ReplicateContext) (fpTranslator : Item → Option Item) :
    enforce_position_footprints context fpTranslator = ([], Except.error PyErr.nameError) :=
  rfl

/-- The attribute state of a `ReportedError` object.  `__init__` (placement.py
lines 18-28) assigns `title`, `message`, `level` and `footprint` only; no
code path in the repository ever assigns `sheet` or `pcb`, so for those two
a `none` value models "attribute never assigned" (reading it raises
`AttributeError`).  The footprint is represented by its reference string. -/
structure ReportedErrorState where
  title : String
  message : Option String
  level : ℕ
  footprint : Option String
  sheet : Option String
  pcb : Option String
deriving DecidableEq, Repr

/-- `ReportedError.__str__` (placement.py lines 32-43): build the message
lines — the header with level and title, then `Message:` when `self.message`
is truthy, then `Footprint:` when `self.footprint` is set — and then read
`self.sheet` (line 38) and `self.pcb` (line 40); reading an attribute that
was never assigned raises `AttributeError`. -/
def ReportedError.str (e : ReportedErrorState) : Except PyErr String :=
  let msg : List String := ["ERR." ++ toString e.level ++ "\t" ++ e.title]
  let msg : List String :=
    match e.message with
    | some m => if m ≠ "" then msg ++ [" Message: " ++ m] else msg
    | none => msg
  let msg : List String :=
    match e.footprint with
    | some r => msg ++ [" Footprint: " ++ r]
    | none => msg
  match e.sheet with
  | none => Except.error PyErr.attributeError
  | some s =>
    let msg : List String := if s ≠ "" then msg ++ [" Sheet: " ++ s] else msg
    match e.pcb with
    | none => Except.error PyErr.attributeError
    | some p =>
      let msg : List String := if p ≠ "" then msg ++ [" SubPCB: " ++ p] else msg
      Except.ok (String.intercalate "\n" msg)

/-- `ReportedError.__init__` (placement.py lines 18-30): store the four
constructor arguments and then evaluate `logger.debug(str(self))` — the
argument `str(self)` is evaluated eagerly regardless of the logging level,
so any exception raised by `__str__` propagates out of the constructor. -/
def ReportedError.init (title : String) (message : Option String) (level : ℕ)
    (footprint : Option String) : Except PyErr ReportedErrorState :=
  let e : ReportedErrorState :=
    { title := title, message := message, level := level, footprint := footprint,
      sheet := none, pcb := none }
  match ReportedError.str e with
  | Except.error err => Except.error err
  | Except.ok _ => Except.ok e

/-- C10 (confirmed): for every title, optional message, severity level and
optional footprint, constructing a `ReportedError` raises `AttributeError`:
`__init__` eagerly evaluates `str(self)`, and `__str__` unconditionally
reads `self.sheet` (and would read `self.pcb`), attributes no code path
ever assigns — so no `ReportedError` diagnostic record can ever be
successfully created. -/
theorem c10_reported_error_always_raises (title : String) (message : Option String)
    (level : ℕ) (footprint : Option String) :
    ReportedError.init title message level footprint = Except.error PyErr.attributeError :=
  rfl

/-- Modelled from the spec: the run driver (`BaseSchData.replicate` in the
repository's `hdata.py`, which is not under src/) executes the placement.py
phases strictly in order — purge the volatile items of the target group,
footprint copy building the net correspondence, then drawings, tracks and
zones using that correspondence.  The phases themselves are the embeddings
of the placement.py functions above. -/
noncomputable def replicate_run (context : ReplicateContext)
    (fpTranslator : Item → Option Item) : List Diag × Except PyErr Board :=
  let tb1 := clear_volatile_items context.targetBoard context.group
  match enforce_position_footprints { context with targetBoard := tb1 } fpTranslator with
  | (diags, Except.error e) => (diags, Except.error e)
  | (diags, Except.ok netMapping) =>
    let tr := context.transform.translate
    let tb2 := copy_drawings tr (context.transform.orient 0) context.group tb1
      context.sourceBoard.Drawings
    let tb3 := copy_traces tr context.group netMapping tb2 context.sourceBoard.Tracks
    match copy_zones { context with targetBoard := tb3 } netMapping with
    | Except.error e => (diags, Except.error e)
    | Except.ok tb4 => (diags, Except.ok tb4)

/-- C2: a replication run can never complete, let alone be idempotent — the
footprint-copy phase aborts every run with `NameError` (placement.py line
299 reads `self._fpTranslator` in a module-level function; `copy_zones`
line 206 has the same defect), so for every context and pairing function
the run fails with no diagnostics, leaving the target purged but never
refilled; running twice cannot equal running once because no run ever
reaches a synchronized state. -/
theorem c2_run_always_fails (context : ReplicateContext)
    (fpTranslator : Item → Option Item) :
    replicate_run context fpTranslator = ([], Except.error PyErr.nameError) :=
  rfl
